import Mathlib

/-!
Verification of the engine.io server core (lib/socket.js, lib/server.js,
lib/transport.js, lib/transports/index.js) against its specification.

The JavaScript code is shallowly embedded: each method of `Socket` and
`Server` becomes a pure Lean function from the relevant state to the new
state together with a list of observable effects (events emitted, packets
handed to a transport, transports closed, callbacks invoked).  Timers are
modelled by their armed state: a `setTimeout`/`setInterval` call stores the
delay, `clearTimeout`/`clearInterval` stores `none`; a separate `fire...`
function models the body of the timer callback running on expiry.
Send-completion callbacks are identified by opaque numeric ids.
-/

namespace EngineIO

/-- Payload of the handshake "open" packet: the object passed to
`JSON.stringify` in `Socket.onOpen`. -/
structure OpenPayload where
  sid : String
  upgrades : List String
  pingInterval : Nat
  pingTimeout : Nat
deriving DecidableEq, Repr

/-- JavaScript value occurring as packet data (the `data` argument of
`send`/`sendPacket` and the decoded `packet.data` of inbound packets).
`jsonOf p` stands for the string `JSON.stringify(p)` produced in
`Socket.onOpen`; serialization is injective, so the payload itself is the
faithful representation of that string. -/
inductive JsVal where
  | undef
  | nullv
  | str (s : String)
  | num (n : Int)
  | jsonOf (p : OpenPayload)
deriving DecidableEq, Repr

/-- Truthiness of a `JsVal`, as used by `if (data)` in `sendPacket` and
`if (this.server.opts.initialPacket)` in `onOpen`. -/
def JsVal.truthy : JsVal → Bool
  | .undef => false
  | .nullv => false
  | .str s => s ≠ ""
  | .num n => n ≠ 0
  | .jsonOf _ => true

/-- Packet options attached by `sendPacket` (`options.compress`). -/
structure POptions where
  compress : Bool
deriving DecidableEq, Repr

/-- An engine.io packet `\x7btype, data?, options?\x7d`.  Inbound decoded
packets carry no `options`; packets built by `sendPacket` always do, and
carry `data` only when the supplied data was truthy. -/
structure Packet where
  type : String
  data : Option JsVal := none
  options : Option POptions := none
deriving DecidableEq, Repr

/-- One entry of `Socket.sentCallbackFn`: `flush` pushes either individual
callback functions (framed transports) or one array holding the whole
`packetsFn` batch (polling). -/
inductive SentEntry where
  | single (cb : Nat)
  | grouped (cbs : List Nat)
deriving DecidableEq, Repr

/-- State of a bound transport that `Socket` reads or writes:
`name`, `writable`, `supportsFraming` (getters), `readyState` and
`discarded` from the `Transport` base class. -/
structure Transport where
  name : String
  writable : Bool
  supportsFraming : Bool
  readyState : String
  discarded : Bool
deriving DecidableEq, Repr

/-- Server options consulted by `Socket` (subset of `Server.opts`). -/
structure Opts where
  pingInterval : Nat
  pingTimeout : Nat
  upgradeTimeout : Nat
  transports : List String
  allowUpgrades : Bool
  initialPacket : JsVal
deriving DecidableEq, Repr

/-- Observable effect of a `Socket` operation, in program order:
events emitted on the socket or the server, `send`/`close`/`discard`
calls on the current transport or on the upgrade candidate transport,
and invocations of send-completion callbacks.  `transportClose r` /
`candClose r` record a `transport.close(cb)` call whose callback, if
present, is `onClose` bound to reason `r`. -/
inductive Ev where
  | emit (name : String)
  | emitPacket (name : String) (p : Packet)
  | emitData (name : String) (d : Option JsVal)
  | emitFlush (buf : List Packet)
  | emitClose (reason : String)
  | emitUpgrading (t : Transport)
  | emitUpgrade (t : Transport)
  | serverEmit (name : String)
  | transportSend (ps : List Packet)
  | candSend (ps : List Packet)
  | transportDiscard
  | transportClose (cbReason : Option String)
  | candClose (cbReason : Option String)
  | invoke (cb : Nat)
deriving DecidableEq, Repr

/-- State of one `Socket` (session).  Timer fields hold the armed delay
(`some ms`) or `none` when cleared; `pendingCloseOnDrain` records the
`once("drain", closeTransport)` listener registered by `close`. -/
structure Socket where
  id : String
  opts : Opts
  upgrading : Bool
  upgraded : Bool
  readyState : String
  writeBuffer : List Packet
  packetsFn : List Nat
  sentCallbackFn : List SentEntry
  transport : Transport
  checkIntervalTimer : Option Nat
  upgradeTimeoutTimer : Bool
  pingTimeoutTimer : Option Nat
  pingIntervalTimer : Option Nat
  pendingCloseOnDrain : Bool
deriving DecidableEq, Repr

/-- Guard of `Socket.flush`:
`"closed" !== this.readyState && this.transport.writable && this.writeBuffer.length`. -/
def flushCond (s : Socket) : Bool :=
  !(s.readyState == "closed") && s.transport.writable && !s.writeBuffer.isEmpty

/-- The `sentCallbackFn` update made by `flush`: with framing the
individual callbacks are appended 1:1; without framing the whole
`packetsFn` array is pushed as one grouped entry (even when empty). -/
def flushCallbacks (s : Socket) : List SentEntry :=
  if s.transport.supportsFraming then
    s.sentCallbackFn ++ s.packetsFn.map SentEntry.single
  else
    s.sentCallbackFn ++ [SentEntry.grouped s.packetsFn]

/-- Model of `Socket.flush`: when the guard holds, emit `flush` locally and on the
server, detach the whole `writeBuffer` into one `transport.send` call,
move `packetsFn` into `sentCallbackFn`, and emit `drain` locally and on
the server. -/
def flush (s : Socket) : Socket × List Ev :=
  if flushCond s then
    ({ s with writeBuffer := [], packetsFn := [], sentCallbackFn := flushCallbacks s },
     [Ev.emitFlush s.writeBuffer, Ev.serverEmit "flush",
      Ev.transportSend s.writeBuffer, Ev.emit "drain", Ev.serverEmit "drain"])
  else (s, [])

/-- Effective compress flag: `options.compress = false !== options.compress`. -/
def compressOpt (o : Option Bool) : Bool := !(o == some false)

/-- Packet construction inside `sendPacket`: the `data` field is set only
when the supplied data is truthy (`if (data) packet.data = data`). -/
def mkPacket (type_ : String) (data : JsVal) (compress : Bool) : Packet :=
  { type := type_
    options := some { compress := compress }
    data := if data.truthy then some data else none }

/-- The two `push` statements of `sendPacket`: append the new packet to
`writeBuffer` and the callback, if given, to `packetsFn`. -/
def sendEnqueue (type_ : String) (data : JsVal) (compress : Option Bool)
    (cb : Option Nat) (s : Socket) : Socket :=
  { s with
    writeBuffer := s.writeBuffer ++ [mkPacket type_ data (compressOpt compress)]
    packetsFn := s.packetsFn ++ cb.toList }

/-- Model of `Socket.sendPacket`: unless `readyState` is `closing` or `closed`,
emit `packetCreate`, enqueue the packet and its callback, and call
`flush`. -/
def sendPacket (type_ : String) (data : JsVal) (compress : Option Bool)
    (cb : Option Nat) (s : Socket) : Socket × List Ev :=
  if !(s.readyState == "closing") && !(s.readyState == "closed") then
    let pkt := mkPacket type_ data (compressOpt compress)
    let r := flush (sendEnqueue type_ data compress cb s)
    (r.1, Ev.emitPacket "packetCreate" pkt :: r.2)
  else (s, [])

/-- Model of `Socket.send` (and its alias `write`): send a `message` packet.  In
the JavaScript source the method returns `this` for chaining; here the
returned state is that same session object after the call. -/
def send (data : JsVal) (compress : Option Bool) (cb : Option Nat)
    (s : Socket) : Socket × List Ev :=
  sendPacket "message" data compress cb s

/-- Effects of invoking one `sentCallbackFn` entry in the drain handler
of `setupSendCallback`: a function entry is called once, an array entry
has each of its functions called. -/
def invokeEntry : SentEntry → List Ev
  | .single cb => [Ev.invoke cb]
  | .grouped cbs => cbs.map Ev.invoke

/-- The `onDrain` handler installed by `Socket.setupSendCallback`: when
`sentCallbackFn` is non-empty, splice off exactly its first entry and
invoke it. -/
def onDrain (s : Socket) : Socket × List Ev :=
  match s.sentCallbackFn with
  | [] => (s, [])
  | e :: rest => ({ s with sentCallbackFn := rest }, invokeEntry e)

/-- Model of `Socket.schedulePing`: clear and re-arm `pingIntervalTimer` to
`opts.pingInterval` ms. -/
def schedulePing (s : Socket) : Socket :=
  { s with pingIntervalTimer := some s.opts.pingInterval }

/-- Model of `Socket.resetPingTimeout`: clear and re-arm `pingTimeoutTimer` to the
given delay. -/
def resetPingTimeout (timeout : Nat) (s : Socket) : Socket :=
  { s with pingTimeoutTimer := some timeout }

/-- One step of `Transport.close` as seen from the socket: a transport
that is already `closing` or `closed` ignores the call, otherwise it
enters `closing` and begins `doClose`. -/
def transportCloseStep (t : Transport) : Transport :=
  if t.readyState == "closed" || t.readyState == "closing" then t
  else { t with readyState := "closing" }

/-- Model of `Socket.clearTransport`: run the cleanup functions (listener removal,
not observable here), close the current transport, and clear
`pingTimeoutTimer`. -/
def clearTransport (s : Socket) : Socket × List Ev :=
  ({ s with transport := transportCloseStep s.transport, pingTimeoutTimer := none },
   [Ev.transportClose none])

/-- Model of `Socket.onClose`: on the first call, mark the session `closed`, clear
every timer, drop the callback queues and the write buffer (the buffer is
emptied on the next tick), clear the transport, and emit `close` with the
given reason. -/
def onClose (reason : String) (s : Socket) : Socket × List Ev :=
  if !(s.readyState == "closed") then
    let s1 : Socket :=
      { s with readyState := "closed"
               pingIntervalTimer := none, pingTimeoutTimer := none
               checkIntervalTimer := none, upgradeTimeoutTimer := false
               writeBuffer := [], packetsFn := [], sentCallbackFn := [] }
    let r := clearTransport s1
    (r.1, r.2 ++ [Ev.emitClose reason])
  else (s, [])

/-- Model of `Socket.onPacket` dispatch on the packet type once the liveness reset
has run: `pong` re-schedules the ping and emits `heartbeat`; `error`
closes the session with reason "parse error"; `message` emits `data`
and `message`. -/
def packetDispatch (p : Packet) (s : Socket) : Socket × List Ev :=
  if p.type == "pong" then (schedulePing s, [Ev.emit "heartbeat"])
  else if p.type == "error" then onClose "parse error" s
  else if p.type == "message" then
    (s, [Ev.emitData "data" p.data, Ev.emitData "message" p.data])
  else (s, [])

/-- Model of `Socket.onPacket`: packets on a non-open session are dropped; on an
open session the packet is emitted, `pingTimeoutTimer` is reset to
`pingInterval + pingTimeout` ms as a liveness signal, and the
type-specific handling runs. -/
def onPacket (p : Packet) (s : Socket) : Socket × List Ev :=
  if s.readyState == "open" then
    let r := packetDispatch p
      (resetPingTimeout (s.opts.pingInterval + s.opts.pingTimeout) s)
    (r.1, Ev.emitPacket "packet" p :: r.2)
  else (s, [])

/-- Body of the `pingIntervalTimer` callback in `schedulePing`: the timer
has fired (so is no longer armed), a `ping` packet is sent, and
`pingTimeoutTimer` is armed to `opts.pingTimeout` ms. -/
def firePingIntervalTimer (s : Socket) : Socket × List Ev :=
  let s0 : Socket := { s with pingIntervalTimer := none }
  let r := sendPacket "ping" .undef none none s0
  (resetPingTimeout s.opts.pingTimeout r.1, r.2)

/-- Body of the `pingTimeoutTimer` callback in `resetPingTimeout`: the
timer has fired; unless the session is already closed it closes with
reason "ping timeout". -/
def firePingTimeoutTimer (s : Socket) : Socket × List Ev :=
  let s0 : Socket := { s with pingTimeoutTimer := none }
  if s0.readyState == "closed" then (s0, [])
  else onClose "ping timeout" s0

/-- Model of `Socket.getAvailableUpgrades` composed with `Server.upgrades`: the
upgrade map of the current transport (`transports[name].upgradesTo`,
empty when `allowUpgrades` is off) filtered to `opts.transports`. -/
def upgradesTo (name : String) : List String :=
  if name == "polling" then ["websocket"] else []

/-- Model of `Server.upgrades`: empty when `opts.allowUpgrades` is false,
otherwise the transport's `upgradesTo` list. -/
def serverUpgrades (opts : Opts) (name : String) : List String :=
  if !opts.allowUpgrades then [] else upgradesTo name

/-- Model of `Socket.getAvailableUpgrades`: keep only the upgrades that are also
enabled in `opts.transports`. -/
def getAvailableUpgrades (s : Socket) : List String :=
  (serverUpgrades s.opts s.transport.name).filter
    (fun upg => s.opts.transports.contains upg)

/-- Model of `Socket.onOpen`: enter `open`, send the handshake `open` packet whose
data is the JSON serialization of `\x7bsid, upgrades, pingInterval,
pingTimeout\x7d`, send `opts.initialPacket` as a `message` packet when it
is configured (truthy), emit `open`, and start the heartbeat. -/
def onOpen (s : Socket) : Socket × List Ev :=
  let s0 : Socket := { s with readyState := "open" }
  let payload : OpenPayload :=
    { sid := s0.id
      upgrades := getAvailableUpgrades s0
      pingInterval := s0.opts.pingInterval
      pingTimeout := s0.opts.pingTimeout }
  let r1 := sendPacket "open" (.jsonOf payload) none none s0
  let r2 :=
    if s0.opts.initialPacket.truthy then
      sendPacket "message" s0.opts.initialPacket none none r1.1
    else (r1.1, [])
  (schedulePing r2.1, r1.2 ++ r2.2 ++ [Ev.emit "open"])

/-- The pong probe reply sent by the upgrade handler:
`transport.send([\x7b type: "pong", data: "probe" \x7d])`. -/
def pongProbePkt : Packet := { type := "pong", data := some (.str "probe") }

/-- The noop packet sent by the upgrade `check` interval:
`self.transport.send([\x7b type: "noop" \x7d])`. -/
def noopPkt : Packet := { type := "noop" }

/-- The `cleanup` closure of `maybeUpgrade`: reset `upgrading`, stop the
check interval and the upgrade timeout, and unregister the probe
listeners (listener removal is not observable here). -/
def upgradeCleanup (s : Socket) : Socket :=
  { s with upgrading := false, checkIntervalTimer := none, upgradeTimeoutTimer := false }

/-- The `check` closure of `maybeUpgrade`, run on each tick of the 100 ms
interval: while the old transport is polling and writable, send a noop
packet on it to force a fast poll cycle. -/
def upgradeCheck (s : Socket) : List Ev :=
  if s.transport.name == "polling" && s.transport.writable then
    [Ev.transportSend [noopPkt]]
  else []

/-- Commit branch of the upgrade handler, on receipt of an `upgrade`
packet: cleanup, discard and clear the old transport, mark `upgraded`,
bind the candidate transport, emit `upgrade`, re-schedule the heartbeat,
flush, and close the candidate with a forced close if the session went
`closing` meanwhile. -/
def upgradeCommit (cand : Transport) (s : Socket) : Socket × List Ev :=
  let s1 := upgradeCleanup s
  let s2 : Socket := { s1 with transport := { s1.transport with discarded := true } }
  let s3 : Socket := { s2 with upgraded := true }
  let r4 := clearTransport s3
  let s5 : Socket := { r4.1 with transport := cand }
  let s6 := schedulePing s5
  let r7 := flush s6
  let evs := Ev.transportDiscard :: r4.2 ++ [Ev.emitUpgrade cand] ++ r7.2
  if r7.1.readyState == "closing" then
    (r7.1, evs ++ [Ev.candClose (some "forced close")])
  else (r7.1, evs)

/-- The `onPacket` closure registered on the candidate transport by
`Socket.maybeUpgrade`: a `ping` packet with data "probe" answers with a
pong probe, emits `upgrading` and starts the 100 ms check interval; an
`upgrade` packet (session not closed) commits the upgrade; anything else
cleans up and closes the candidate transport. -/
def upgradeOnPacket (cand : Transport) (p : Packet) (s : Socket) : Socket × List Ev :=
  if p.type == "ping" && p.data == some (.str "probe") then
    ({ s with checkIntervalTimer := some 100 },
     [Ev.candSend [pongProbePkt], Ev.emitUpgrading cand])
  else if p.type == "upgrade" && !(s.readyState == "closed") then
    upgradeCommit cand s
  else
    (upgradeCleanup s, [Ev.candClose none])

/-- Entry to `Socket.maybeUpgrade`: set `upgrading` and arm
`upgradeTimeoutTimer` to `opts.upgradeTimeout`. -/
def maybeUpgradeStart (s : Socket) : Socket :=
  { s with upgrading := true, upgradeTimeoutTimer := true }

/-- Model of `Socket.closeTransport`: optionally discard the current transport,
then close it with `onClose("forced close")` as completion callback. -/
def closeTransport (discard : Bool) (s : Socket) : Socket × List Ev :=
  let s1 : Socket :=
    if discard then { s with transport := { s.transport with discarded := true } } else s
  ({ s1 with transport := transportCloseStep s1.transport },
   (if discard then [Ev.transportDiscard] else []) ++ [Ev.transportClose (some "forced close")])

/-- Model of `Socket.close`: only an `open` session reacts; it enters `closing`
and, when the write buffer is non-empty, registers a `once("drain")`
listener that will close the transport, otherwise closes the transport
immediately. -/
def close (discard : Bool) (s : Socket) : Socket × List Ev :=
  if s.readyState == "open" then
    let s1 : Socket := { s with readyState := "closing" }
    if s1.writeBuffer.isEmpty then closeTransport discard s1
    else ({ s1 with pendingCloseOnDrain := true }, [])
  else (s, [])

/-- Firing of the `once("drain")` listener registered by `close`: run
`closeTransport` with the discard flag bound at `close` time. -/
def onSocketDrain (discard : Bool) (s : Socket) : Socket × List Ev :=
  if s.pendingCloseOnDrain then
    closeTransport discard { s with pendingCloseOnDrain := false }
  else (s, [])

/-! Server-side model: request verification, error responses and the
client table (lib/server.js). -/

/-- Entry of the `validHdrChars` lookup table used by
`checkInvalidHeaderChar`, indexed by a UTF-16 code unit: HT (9), the
printable ASCII range 32..126, and 128..255 are valid; everything
else (controls, DEL, and any code unit at or beyond 256, where the
table lookup yields `undefined`) is not. -/
def validHdrChar (c : Nat) : Bool :=
  c == 9 || (32 ≤ c && c ≤ 126) || (128 ≤ c && c ≤ 255)

/-- Model of `checkInvalidHeaderChar` on the Origin header, given as the list of
its UTF-16 code units, or `none` when the header is absent (in which
case the value coerces to the string "undefined", all of whose
characters are valid). -/
def checkInvalidHeaderChar : Option (List Nat) → Bool
  | none => false
  | some cs => cs.any (fun c => !validHdrChar c)

/-- One of the wire error codes of `Server.errors`, or a caller-chosen
code handed to the verification callback by `opts.allowRequest`
(a number or a string). -/
inductive JsErr where
  | num (n : Nat)
  | str (s : String)
deriving DecidableEq, Repr

/-- Truthiness of an error code value (used by
`code || Server.errorMessages[Server.errors.FORBIDDEN]`). -/
def JsErr.truthy : JsErr → Bool
  | .num n => n ≠ 0
  | .str s => s ≠ ""

/-- Lookup in `Server.errorMessages`: property access on a JavaScript
object coerces the key to a string, so both the numbers 0..4 and the
strings "0".."4" hit the table. -/
def errKeyMessage : JsErr → Option String
  | .num 0 => some "Transport unknown"
  | .num 1 => some "Session ID unknown"
  | .num 2 => some "Bad handshake method"
  | .num 3 => some "Bad request"
  | .num 4 => some "Forbidden"
  | .str "0" => some "Transport unknown"
  | .str "1" => some "Session ID unknown"
  | .str "2" => some "Bad handshake method"
  | .str "3" => some "Bad request"
  | .str "4" => some "Forbidden"
  | _ => none

/-- Outcome passed to the `verify` callback: `fn(err, false)` or
`fn(null, true)`. -/
inductive VerifyResult where
  | err (code : JsErr)
  | ok
deriving DecidableEq, Repr

/-- The slice of an incoming request read by `Server.verify`: the
`transport` and `sid` query values, the Origin header (as UTF-16 code
units) and the HTTP method. -/
structure VReq where
  queryTransport : Option String
  origin : Option (List Nat)
  querySid : Option String
  method : String
deriving DecidableEq, Repr

/-- The slice of server state read by `Server.verify`: the enabled
transports, the live client table (sid mapped to the name of the
session's current transport), and the decision `opts.allowRequest`
would return for this request when that option is set. -/
structure SrvState where
  transports : List String
  clients : List (String × String)
  allowRequest : Option VerifyResult
deriving DecidableEq, Repr

/-- Truthiness of the `sid` query value: absent or empty means no sid. -/
def sidTruthy : Option String → Bool
  | none => false
  | some s => s ≠ ""

/-- The transport check of `verify`:
`~this.opts.transports.indexOf(transport)`; an absent query value is
never found. -/
def queryTransportOk (srv : SrvState) (req : VReq) : Bool :=
  match req.queryTransport with
  | some t => srv.transports.contains t
  | none => false

/-- Model of `Server.verify`, rule by rule in source order: unknown transport
(0), invalid Origin header (3), then with a sid: unknown sid (1) and,
for non-upgrade requests, transport mismatch (3); without a sid:
non-GET handshake (2), then `opts.allowRequest` when set; otherwise the
request is accepted. -/
def verify (srv : SrvState) (req : VReq) (upgrade : Bool) : VerifyResult :=
  if !queryTransportOk srv req then .err (.num 0)
  else if checkInvalidHeaderChar req.origin then .err (.num 3)
  else if sidTruthy req.querySid then
    match (srv.clients.lookup (req.querySid.getD "")) with
    | none => .err (.num 1)
    | some tname =>
      if !upgrade && !(tname == req.queryTransport.getD "") then .err (.num 3)
      else .ok
  else
    if !(req.method == "GET") then .err (.num 2)
    else
      match srv.allowRequest with
      | none => .ok
      | some decision => decision

/-- An HTTP error response produced by `sendErrorMessage`: status code
and the JSON body `\x7b code, message \x7d`. -/
structure ErrResponse where
  status : Nat
  code : JsErr
  message : JsErr
deriving DecidableEq, Repr

/-- Model of `sendErrorMessage`: a code that is not a key of
`Server.errorMessages` is treated as forbidden and answered with status
403, body code `FORBIDDEN` (4) and the given code as message when it is
truthy; a known code (0..4) is answered with status 400 and its table
message. -/
def sendErrorMessage (code : JsErr) : ErrResponse :=
  match errKeyMessage code with
  | none =>
      { status := 403
        code := .num 4
        message := if code.truthy then code else .str "Forbidden" }
  | some msg => { status := 400, code := code, message := .str msg }

/-- The server's client table together with its `clientsCount` counter. -/
structure ServerClients where
  clients : List String
  clientsCount : Nat
deriving DecidableEq, Repr

/-- Server state at construction: empty table, zero count. -/
def initialServer : ServerClients := { clients := [], clientsCount := 0 }

/-- The two mutations of the client table, each atomic in the
single-threaded event loop: `handshake` stores the new session under its
freshly generated sid (unique among live sessions, per `generateId`)
and increments `clientsCount`; the `once("close")` handler installed by
`handshake` deletes that sid and decrements `clientsCount`. -/
inductive SrvStep : ServerClients → ServerClients → Prop
  | handshake (st : ServerClients) (id : String) (fresh : id ∉ st.clients) :
      SrvStep st { clients := id :: st.clients, clientsCount := st.clientsCount + 1 }
  | socketClose (st : ServerClients) (id : String) (mem : id ∈ st.clients) :
      SrvStep st { clients := st.clients.erase id, clientsCount := st.clientsCount - 1 }

/-- Reachability of a server state from construction through handshakes
and session-close handlers: the stable points of the client table. -/
def SrvReachable (st : ServerClients) : Prop :=
  Relation.ReflTransGen SrvStep initialServer st

/-! Observers and concrete fixtures used to instantiate the theorems. -/

/-- The packets announced by `packetCreate` events, in order: exactly the
packets that `sendPacket` accepted into the write buffer. -/
def packetCreates (evs : List Ev) : List Packet :=
  evs.filterMap fun e =>
    match e with
    | .emitPacket n p => if n == "packetCreate" then some p else none
    | _ => none

/-- A live polling transport (fields as produced by the polling
transport constructor once a GET is parked). -/
def pollingT : Transport :=
  { name := "polling", writable := true, supportsFraming := false
    readyState := "open", discarded := false }

/-- A live websocket transport. -/
def websocketT : Transport :=
  { name := "websocket", writable := true, supportsFraming := true
    readyState := "open", discarded := false }

/-- The default server options of the `Server` constructor. -/
def defaultOpts : Opts :=
  { pingInterval := 25000, pingTimeout := 5000, upgradeTimeout := 10000
    transports := ["polling", "websocket"], allowUpgrades := true
    initialPacket := .undef }

/-- An open session on a polling transport with empty queues. -/
def sampleSocket : Socket :=
  { id := "sid1", opts := defaultOpts, upgrading := false, upgraded := false
    readyState := "open", writeBuffer := [], packetsFn := [], sentCallbackFn := []
    transport := pollingT, checkIntervalTimer := none, upgradeTimeoutTimer := false
    pingTimeoutTimer := none, pingIntervalTimer := none, pendingCloseOnDrain := false }

/-- An open session with one buffered packet carrying one callback, used
to instantiate the flush theorem. -/
def c3sock : Socket := { sampleSocket with writeBuffer := [noopPkt], packetsFn := [7] }

/-- An inbound pong packet. -/
def pongPkt : Packet := { type := "pong" }

/-- A handshake GET for an unknown transport name. -/
def reqBadTransport : VReq :=
  { queryTransport := some "webtransport", origin := none, querySid := none, method := "GET" }

/-- A server with the default transports and one live polling session. -/
def srvDefault : SrvState :=
  { transports := ["polling", "websocket"], clients := [("sid1", "polling")]
    allowRequest := none }

/-- A handshake GET with a well-formed query and no sid. -/
def reqPlainGet : VReq :=
  { queryTransport := some "polling", origin := none, querySid := none, method := "GET" }

/-- A server whose `allowRequest` rejects with the FORBIDDEN code 4. -/
def srvForbidden : SrvState :=
  { transports := ["polling", "websocket"], clients := []
    allowRequest := some (.err (.num 4)) }

/-- Session state at the flush point of the upgrade commit: cleanup has
run, the old transport has been discarded and closed (its final state
survives only in the effect trace), the candidate transport is bound and
the heartbeat is re-scheduled. -/
def upgCommitState (cand : Transport) (s : Socket) : Socket :=
  { s with upgrading := false, checkIntervalTimer := none, upgradeTimeoutTimer := false
           upgraded := true, transport := cand, pingTimeoutTimer := none
           pingIntervalTimer := some s.opts.pingInterval }

/-- Effects of the upgrade commit up to and including the flush. -/
def upgCommitEvs (cand : Transport) (s : Socket) : List Ev :=
  Ev.transportDiscard :: [Ev.transportClose none] ++ [Ev.emitUpgrade cand]
    ++ (flush (upgCommitState cand s)).2

/-- A session mid-upgrade: `maybeUpgrade` has started on an open polling
session. -/
def upgSock : Socket := { sampleSocket with upgrading := true, upgradeTimeoutTimer := true }

/-- The upgrade packet sent by the client to commit. -/
def upgPkt : Packet := { type := "upgrade" }

/-! Preservation lemmas: `flush` and `sendPacket` only touch the three
queue fields, so every other field of the session survives them. -/

theorem flush_fst_opts (s : Socket) : ((flush s).1).opts = s.opts := by
  unfold flush; split <;> rfl

theorem flush_fst_readyState (s : Socket) : ((flush s).1).readyState = s.readyState := by
  unfold flush; split <;> rfl

theorem flush_fst_transport (s : Socket) : ((flush s).1).transport = s.transport := by
  unfold flush; split <;> rfl

theorem flush_fst_pingIntervalTimer (s : Socket) :
    ((flush s).1).pingIntervalTimer = s.pingIntervalTimer := by
  unfold flush; split <;> rfl

theorem flush_fst_pingTimeoutTimer (s : Socket) :
    ((flush s).1).pingTimeoutTimer = s.pingTimeoutTimer := by
  unfold flush; split <;> rfl

theorem flush_fst_checkIntervalTimer (s : Socket) :
    ((flush s).1).checkIntervalTimer = s.checkIntervalTimer := by
  unfold flush; split <;> rfl

theorem flush_fst_upgradeTimeoutTimer (s : Socket) :
    ((flush s).1).upgradeTimeoutTimer = s.upgradeTimeoutTimer := by
  unfold flush; split <;> rfl

theorem flush_fst_upgrading (s : Socket) : ((flush s).1).upgrading = s.upgrading := by
  unfold flush; split <;> rfl

theorem flush_fst_upgraded (s : Socket) : ((flush s).1).upgraded = s.upgraded := by
  unfold flush; split <;> rfl

theorem sendPacket_fst_opts (t : String) (d : JsVal) (c : Option Bool) (cb : Option Nat)
    (s : Socket) : ((sendPacket t d c cb s).1).opts = s.opts := by
  unfold sendPacket
  split
  · exact flush_fst_opts _
  · rfl

theorem sendPacket_fst_readyState (t : String) (d : JsVal) (c : Option Bool) (cb : Option Nat)
    (s : Socket) : ((sendPacket t d c cb s).1).readyState = s.readyState := by
  unfold sendPacket
  split
  · exact flush_fst_readyState _
  · rfl

theorem sendPacket_fst_pingIntervalTimer (t : String) (d : JsVal) (c : Option Bool)
    (cb : Option Nat) (s : Socket) :
    ((sendPacket t d c cb s).1).pingIntervalTimer = s.pingIntervalTimer := by
  unfold sendPacket
  split
  · exact flush_fst_pingIntervalTimer _
  · rfl

theorem sendPacket_fst_pingTimeoutTimer (t : String) (d : JsVal) (c : Option Bool)
    (cb : Option Nat) (s : Socket) :
    ((sendPacket t d c cb s).1).pingTimeoutTimer = s.pingTimeoutTimer := by
  unfold sendPacket
  split
  · exact flush_fst_pingTimeoutTimer _
  · rfl

/-- Events of `flush` never announce a `packetCreate`. -/
theorem packetCreates_flush (s : Socket) : packetCreates (flush s).2 = [] := by
  unfold flush; split <;> rfl

theorem packetCreates_cons_create (p : Packet) (l : List Ev) :
    packetCreates (Ev.emitPacket "packetCreate" p :: l) = p :: packetCreates l := rfl

/-- Packets accepted by one `sendPacket` call: the one constructed packet
when the session is neither closing nor closed, nothing otherwise. -/
theorem packetCreates_sendPacket (t : String) (d : JsVal) (c : Option Bool) (cb : Option Nat)
    (s : Socket) :
    packetCreates (sendPacket t d c cb s).2 =
      if !(s.readyState == "closing") && !(s.readyState == "closed")
      then [mkPacket t d (compressOpt c)] else [] := by
  unfold sendPacket
  split
  · next h =>
      simp only [h, if_true]
      show packetCreates (Ev.emitPacket "packetCreate" _ :: (flush _).2) = _
      rw [packetCreates_cons_create, packetCreates_flush]
  · next h =>
      simp only [h, if_false]
      rfl

/-- Guard of `flush`, spelled as a proposition. -/
theorem flushCond_iff (s : Socket) :
    flushCond s = true ↔
      (s.readyState ≠ "closed" ∧ s.transport.writable = true ∧ s.writeBuffer ≠ []) := by
  simp [flushCond, List.isEmpty_iff, and_assoc]

/-- Claim C3: flush hands packets to the transport iff the session is not
closed, the transport is writable and the write buffer is non-empty; a
firing flush detaches the whole buffer into a single `transport.send`
call, resets `writeBuffer` and `packetsFn`, and moves the pending
callbacks into `sentCallbackFn` — one entry per callback on framed
transports, one grouped array entry otherwise; each transport `drain`
event then removes exactly one `sentCallbackFn` entry and invokes it,
calling every function of a grouped entry. -/
theorem spec_C3 (s : Socket) :
    ((∃ ps, Ev.transportSend ps ∈ (flush s).2) ↔
      (s.readyState ≠ "closed" ∧ s.transport.writable = true ∧ s.writeBuffer ≠ [])) ∧
    (flushCond s = true →
      flush s =
        ({ s with writeBuffer := [], packetsFn := [], sentCallbackFn := flushCallbacks s },
         [Ev.emitFlush s.writeBuffer, Ev.serverEmit "flush", Ev.transportSend s.writeBuffer,
          Ev.emit "drain", Ev.serverEmit "drain"]) ∧
      flushCallbacks s =
        (if s.transport.supportsFraming then s.sentCallbackFn ++ s.packetsFn.map SentEntry.single
         else s.sentCallbackFn ++ [SentEntry.grouped s.packetsFn])) ∧
    (flushCond s = false → flush s = (s, [])) ∧
    (∀ e rest, s.sentCallbackFn = e :: rest →
      onDrain s = ({ s with sentCallbackFn := rest }, invokeEntry e)) ∧
    (s.sentCallbackFn = [] → onDrain s = (s, [])) ∧
    (∀ cb, invokeEntry (.single cb) = [Ev.invoke cb]) ∧
    (∀ cbs, invokeEntry (.grouped cbs) = cbs.map Ev.invoke) := by
  refine ⟨?_, ?_, ?_, ?_, ?_, fun _ => rfl, fun _ => rfl⟩
  · constructor
    · rintro ⟨ps, hmem⟩
      by_cases h : flushCond s
      · exact (flushCond_iff s).1 h
      · rw [Bool.not_eq_true] at h
        simp [flush, h] at hmem
    · intro h
      have hc := (flushCond_iff s).2 h
      exact ⟨s.writeBuffer, by simp [flush, hc]⟩
  · intro h
    exact ⟨by simp [flush, h], rfl⟩
  · intro h
    simp [flush, h]
  · intro e rest h
    unfold onDrain
    rw [h]
  · intro h
    unfold onDrain
    rw [h]

/-- Witness for C3 at a concrete socket with a non-empty buffer. -/
theorem spec_C3_witness :
    flushCond c3sock = true ∧
    (flush c3sock =
        ({ c3sock with writeBuffer := [], packetsFn := [], sentCallbackFn := flushCallbacks c3sock },
         [Ev.emitFlush c3sock.writeBuffer, Ev.serverEmit "flush", Ev.transportSend c3sock.writeBuffer,
          Ev.emit "drain", Ev.serverEmit "drain"]) ∧
      flushCallbacks c3sock =
        (if c3sock.transport.supportsFraming
         then c3sock.sentCallbackFn ++ c3sock.packetsFn.map SentEntry.single
         else c3sock.sentCallbackFn ++ [SentEntry.grouped c3sock.packetsFn])) :=
  ⟨by decide, (spec_C3 c3sock).2.1 (by decide)⟩

/-- Claim C7: on a closing or closed session, `send`/`sendPacket` change
nothing, emit nothing and hand nothing to the transport, while `send`
still returns the (unchanged) session; on an opening or open session,
`send` appends exactly one `message` packet to `writeBuffer` and the
callback, if given, to `packetsFn`, then flushes. -/
theorem spec_C7 (type_ : String) (data : JsVal) (compress : Option Bool) (cb : Option Nat)
    (s : Socket) :
    (s.readyState = "closing" ∨ s.readyState = "closed" →
      send data compress cb s = (s, []) ∧
      sendPacket type_ data compress cb s = (s, [])) ∧
    (s.readyState = "opening" ∨ s.readyState = "open" →
      (sendEnqueue "message" data compress cb s).writeBuffer
        = s.writeBuffer ++ [mkPacket "message" data (compressOpt compress)] ∧
      (sendEnqueue "message" data compress cb s).packetsFn = s.packetsFn ++ cb.toList ∧
      send data compress cb s =
        ((flush (sendEnqueue "message" data compress cb s)).1,
         Ev.emitPacket "packetCreate" (mkPacket "message" data (compressOpt compress))
           :: (flush (sendEnqueue "message" data compress cb s)).2)) := by
  constructor
  · intro h
    have hg : (!(s.readyState == "closing") && !(s.readyState == "closed")) = false := by
      rcases h with h | h <;> simp [h]
    exact ⟨by simp [send, sendPacket, hg], by simp [sendPacket, hg]⟩
  · intro h
    have hg : (!(s.readyState == "closing") && !(s.readyState == "closed")) = true := by
      rcases h with h | h <;> simp [h]
    exact ⟨rfl, rfl, by simp [send, sendPacket, hg]⟩

/-- Witness for C7: a concrete `send` on an open session. -/
theorem spec_C7_witness :
    sampleSocket.readyState = "open" ∧
    send (.str "A") none none sampleSocket =
      ((flush (sendEnqueue "message" (.str "A") none none sampleSocket)).1,
       Ev.emitPacket "packetCreate" (mkPacket "message" (.str "A") (compressOpt none))
         :: (flush (sendEnqueue "message" (.str "A") none none sampleSocket)).2) :=
  ⟨rfl, ((spec_C7 "message" (.str "A") none none sampleSocket).2 (Or.inr rfl)).2.2⟩

/-- Claim C10: `sendPacket` attaches the `data` field exactly when the
supplied data is truthy, so the falsy values `""`, `0`, `null` and
`undefined` all yield a packet with no data field, and sending the
empty string is indistinguishable from sending no data. -/
theorem spec_C10 (t : String) (d : JsVal) (c : Bool) (compress : Option Bool) (cb : Option Nat)
    (s : Socket) :
    ((mkPacket t d c).data = none ↔ d.truthy = false) ∧
    (d.truthy = true → (mkPacket t d c).data = some d) ∧
    mkPacket t (.str "") c = mkPacket t .undef c ∧
    mkPacket t (.num 0) c = mkPacket t .nullv c ∧
    JsVal.truthy (.str "") = false ∧
    JsVal.truthy (.num 0) = false ∧
    JsVal.truthy .nullv = false ∧
    JsVal.truthy .undef = false ∧
    (s.readyState = "open" →
      (sendPacket t d compress cb s).2.head?
        = some (Ev.emitPacket "packetCreate" (mkPacket t d (compressOpt compress))) ∧
      (sendEnqueue t d compress cb s).writeBuffer
        = s.writeBuffer ++ [mkPacket t d (compressOpt compress)]) := by
  refine ⟨?_, ?_, by simp [mkPacket, JsVal.truthy], by simp [mkPacket, JsVal.truthy],
    by decide, by decide, rfl, rfl, ?_⟩
  · unfold mkPacket
    cases hd : d.truthy <;> simp [hd]
  · intro hd
    simp [mkPacket, hd]
  · intro h
    have hg : (!(s.readyState == "closing") && !(s.readyState == "closed")) = true := by
      simp [h]
    exact ⟨by simp [sendPacket, hg], rfl⟩

/-- Witness for C10: the empty string yields a packet without data. -/
theorem spec_C10_witness :
    JsVal.truthy (.str "") = false ∧ (mkPacket "message" (.str "") true).data = none :=
  ⟨by decide, (spec_C10 "message" (.str "") true none none sampleSocket).1.mpr (by decide)⟩

theorem schedulePing_pingIntervalTimer (s : Socket) :
    (schedulePing s).pingIntervalTimer = some s.opts.pingInterval := rfl

/-- Claim C2: the ping-interval timer is armed to `pingInterval` ms on
entry to open and re-armed after every received pong; on its expiry the
session sends a ping packet and arms the ping-timeout timer to
`pingTimeout` ms; every inbound packet received while open goes through
the liveness reset of the ping-timeout timer to
`pingInterval + pingTimeout` ms (and, unless the packet was a fatal
`error` packet, that is the timer's resulting state); and expiry of the
ping-timeout timer on a non-closed session closes it with reason
"ping timeout". -/
theorem spec_C2 (s : Socket) (p : Packet) :
    (((onOpen s).1).pingIntervalTimer = some s.opts.pingInterval) ∧
    (s.readyState = "open" → p.type = "pong" →
      ((onPacket p s).1).pingIntervalTimer = some s.opts.pingInterval) ∧
    (s.readyState = "open" →
      onPacket p s =
        (let r := packetDispatch p
          (resetPingTimeout (s.opts.pingInterval + s.opts.pingTimeout) s)
         (r.1, Ev.emitPacket "packet" p :: r.2)) ∧
      (resetPingTimeout (s.opts.pingInterval + s.opts.pingTimeout) s).pingTimeoutTimer
        = some (s.opts.pingInterval + s.opts.pingTimeout)) ∧
    (s.readyState = "open" → p.type ≠ "error" →
      ((onPacket p s).1).pingTimeoutTimer = some (s.opts.pingInterval + s.opts.pingTimeout)) ∧
    (s.readyState = "open" →
      ((firePingIntervalTimer s).1).pingTimeoutTimer = some s.opts.pingTimeout ∧
      packetCreates (firePingIntervalTimer s).2 = [mkPacket "ping" .undef true]) ∧
    (s.readyState ≠ "closed" →
      ((firePingTimeoutTimer s).1).readyState = "closed" ∧
      Ev.emitClose "ping timeout" ∈ (firePingTimeoutTimer s).2) := by
  refine ⟨?_, ?_, ?_, ?_, ?_, ?_⟩
  · unfold onOpen
    dsimp only
    split <;>
      (rw [schedulePing_pingIntervalTimer, sendPacket_fst_opts]; try rw [sendPacket_fst_opts])
  · intro h hp
    simp [onPacket, packetDispatch, h, hp, schedulePing, resetPingTimeout]
  · intro h
    exact ⟨by simp [onPacket, h], rfl⟩
  · intro h he
    by_cases hp : p.type = "pong"
    · simp [onPacket, packetDispatch, h, hp, schedulePing, resetPingTimeout]
    · by_cases hm : p.type = "message"
      · simp [onPacket, packetDispatch, h, hp, hm, resetPingTimeout]
      · simp [onPacket, packetDispatch, h, hp, hm, he, resetPingTimeout]
  · intro h
    refine ⟨rfl, ?_⟩
    unfold firePingIntervalTimer
    dsimp only
    rw [packetCreates_sendPacket]
    simp [h, compressOpt]
  · intro h
    have hb : (s.readyState == "closed") = false := by simp [h]
    constructor
    · show ((firePingTimeoutTimer s).1).readyState = "closed"
      unfold firePingTimeoutTimer onClose clearTransport
      simp [hb]
    · unfold firePingTimeoutTimer onClose clearTransport
      simp [hb]

/-- Witness for C2: a pong on a concrete open session re-arms the
ping-interval timer to the default 25000 ms. -/
theorem spec_C2_witness :
    sampleSocket.readyState = "open" ∧
    ((onPacket pongPkt sampleSocket).1).pingIntervalTimer = some 25000 :=
  ⟨rfl, (spec_C2 sampleSocket pongPkt).2.1 rfl rfl⟩

theorem packetCreates_append (l1 l2 : List Ev) :
    packetCreates (l1 ++ l2) = packetCreates l1 ++ packetCreates l2 := by
  simp [packetCreates]

/-- Claim C6: on entry to open the session sends an `open` packet whose
data is the JSON serialization of `\x7bsid, upgrades, pingInterval,
pingTimeout\x7d`, where `upgrades` is the upgrade map of the current
transport (polling to ["websocket"], websocket to []) intersected with
`opts.transports`, and empty when `allowUpgrades` is off; a configured
`initialPacket` is sent as a `message` packet immediately after. -/
theorem spec_C6 (s : Socket) :
    packetCreates (onOpen s).2 =
      mkPacket "open"
        (.jsonOf { sid := s.id, upgrades := getAvailableUpgrades s,
                   pingInterval := s.opts.pingInterval, pingTimeout := s.opts.pingTimeout })
        true
      :: (if s.opts.initialPacket.truthy
          then [mkPacket "message" s.opts.initialPacket true] else []) ∧
    (∀ pl : OpenPayload, (mkPacket "open" (.jsonOf pl) true).data = some (.jsonOf pl)) ∧
    getAvailableUpgrades s =
      (serverUpgrades s.opts s.transport.name).filter
        (fun u => s.opts.transports.contains u) ∧
    upgradesTo "polling" = ["websocket"] ∧
    upgradesTo "websocket" = [] ∧
    (s.opts.allowUpgrades = false → serverUpgrades s.opts s.transport.name = []) ∧
    (s.opts.allowUpgrades = true →
      serverUpgrades s.opts s.transport.name = upgradesTo s.transport.name) := by
  refine ⟨?_, fun pl => rfl, rfl, by decide, by decide, ?_, ?_⟩
  · unfold onOpen
    dsimp only
    split
    · next hinit =>
        rw [packetCreates_append, packetCreates_append, packetCreates_sendPacket,
            packetCreates_sendPacket, sendPacket_fst_readyState]
        simp [hinit, compressOpt, packetCreates]
        rfl
    · next hinit =>
        rw [packetCreates_append, packetCreates_append, packetCreates_sendPacket]
        simp [hinit, compressOpt, packetCreates]
        rfl
  · intro h
    simp [serverUpgrades, h]
  · intro h
    simp [serverUpgrades, h]

/-- Witness for C6: with the default options upgrades are allowed, so the
full upgrade map of the transport applies. -/
theorem spec_C6_witness :
    sampleSocket.opts.allowUpgrades = true ∧
    serverUpgrades sampleSocket.opts sampleSocket.transport.name
      = upgradesTo sampleSocket.transport.name :=
  ⟨rfl, (spec_C6 sampleSocket).2.2.2.2.2.2 rfl⟩

/-- Claim C4: `verify` applies its rules in source order — unknown
transport (0), invalid Origin header character (3); with a sid: unknown
sid (1) then, on non-upgrade requests, transport-name mismatch (3);
without a sid: non-GET method (2) then, when set, the `allowRequest`
decision; otherwise the request is accepted. -/
theorem spec_C4 (srv : SrvState) (req : VReq) (upgrade : Bool) :
    (queryTransportOk srv req = true ↔
      ∃ t, req.queryTransport = some t ∧ t ∈ srv.transports) ∧
    (queryTransportOk srv req = false → verify srv req upgrade = .err (.num 0)) ∧
    (queryTransportOk srv req = true → checkInvalidHeaderChar req.origin = true →
      verify srv req upgrade = .err (.num 3)) ∧
    (queryTransportOk srv req = true → checkInvalidHeaderChar req.origin = false →
      sidTruthy req.querySid = true →
      (srv.clients.lookup (req.querySid.getD "") = none →
        verify srv req upgrade = .err (.num 1)) ∧
      (∀ tname, srv.clients.lookup (req.querySid.getD "") = some tname →
        (upgrade = false → tname ≠ req.queryTransport.getD "" →
          verify srv req upgrade = .err (.num 3)) ∧
        (upgrade = true ∨ tname = req.queryTransport.getD "" →
          verify srv req upgrade = .ok))) ∧
    (queryTransportOk srv req = true → checkInvalidHeaderChar req.origin = false →
      sidTruthy req.querySid = false →
      (req.method ≠ "GET" → verify srv req upgrade = .err (.num 2)) ∧
      (req.method = "GET" → srv.allowRequest = none → verify srv req upgrade = .ok) ∧
      (∀ d, req.method = "GET" → srv.allowRequest = some d →
        verify srv req upgrade = d)) := by
  refine ⟨?_, ?_, ?_, ?_, ?_⟩
  · unfold queryTransportOk
    cases req.queryTransport with
    | none => simp
    | some t => simp
  · intro h
    simp [verify, h]
  · intro h1 h2
    simp [verify, h1, h2]
  · intro h1 h2 h3
    constructor
    · intro hl
      simp [verify, h1, h2, h3, hl]
    · intro tname hl
      constructor
      · intro hu hne
        simp [verify, h1, h2, h3, hl, hu, hne]
      · intro hok
        rcases hok with hu | heq
        · simp [verify, h1, h2, h3, hl, hu]
        · simp [verify, h1, h2, h3, hl, heq]
  · intro h1 h2 h3
    refine ⟨?_, ?_, ?_⟩
    · intro hm
      simp [verify, h1, h2, h3, hm]
    · intro hm ha
      simp [verify, h1, h2, h3, hm, ha]
    · intro d hm ha
      simp [verify, h1, h2, h3, hm, ha]

/-- Witness for C4: an unknown transport name is rejected with code 0. -/
theorem spec_C4_witness :
    queryTransportOk srvDefault reqBadTransport = false ∧
    verify srvDefault reqBadTransport false = .err (.num 0) :=
  ⟨by decide, (spec_C4 srvDefault reqBadTransport false).2.1 (by decide)⟩

/-- Counterexample to claim C5: a request rejected with the FORBIDDEN
code (4) — possible when `opts.allowRequest` rejects with that code —
is answered with HTTP status 400, not 403, because 4 is a key of
`Server.errorMessages` and only codes missing from that table take the
403 branch of `sendErrorMessage`. -/
theorem spec_C5_counterexample :
    verify srvForbidden reqPlainGet false = .err (.num 4) ∧
    sendErrorMessage (.num 4) =
      { status := 400, code := .num 4, message := .str "Forbidden" } ∧
    (sendErrorMessage (.num 4)).status ≠ 403 := by
  refine ⟨by decide, by decide, by decide⟩

/-- Claim C5 as amended: a rejecting code that is a key of the error
table (0..4, FORBIDDEN included) is sent with HTTP status 400 and body
`\x7bcode, message\x7d` from the table; a code outside the table is sent
with HTTP status 403 and body code FORBIDDEN (4), the message being the
supplied code itself when truthy and "Forbidden" otherwise. -/
theorem spec_C5 (c : JsErr) :
    (∀ msg, errKeyMessage c = some msg →
      sendErrorMessage c = { status := 400, code := c, message := .str msg }) ∧
    (errKeyMessage c = none →
      sendErrorMessage c =
        { status := 403, code := .num 4,
          message := if c.truthy then c else .str "Forbidden" }) := by
  constructor
  · intro msg h
    unfold sendErrorMessage
    rw [h]
  · intro h
    unfold sendErrorMessage
    rw [h]

/-- Witness for C5 (amended): the UNKNOWN_SID code is answered with 400
and its table message. -/
theorem spec_C5_witness :
    errKeyMessage (.num 1) = some "Session ID unknown" ∧
    sendErrorMessage (.num 1) =
      { status := 400, code := .num 1, message := .str "Session ID unknown" } :=
  ⟨rfl, (spec_C5 (.num 1)).1 "Session ID unknown" rfl⟩

theorem closeTransport_fst_readyState (d : Bool) (s : Socket) :
    ((closeTransport d s).1).readyState = s.readyState := by
  unfold closeTransport
  cases d <;> rfl

/-- Claim C8: a second `close` finds `readyState` different from "open"
and returns without effect, so closing twice equals closing once; a
single `close` on an open session registers a one-shot drain listener
(and does not yet close the transport) when the write buffer is
non-empty, and closes the transport immediately when it is empty. -/
theorem spec_C8 (d d' : Bool) (s : Socket) :
    close d' ((close d s).1) = ((close d s).1, []) ∧
    (s.readyState = "open" → s.writeBuffer ≠ [] →
      close d s = ({ s with readyState := "closing", pendingCloseOnDrain := true }, []) ∧
      Ev.transportClose (some "forced close") ∈ (onSocketDrain d ((close d s).1)).2) ∧
    (s.readyState = "open" → s.writeBuffer = [] →
      close d s = closeTransport d { s with readyState := "closing" } ∧
      Ev.transportClose (some "forced close") ∈ (close d s).2) := by
  refine ⟨?_, ?_, ?_⟩
  · by_cases h : s.readyState = "open"
    · have h1 : ((close d s).1).readyState = "closing" := by
        simp only [close, h, beq_self_eq_true, if_true]
        split
        · rw [closeTransport_fst_readyState]
        · rfl
      have hb2 : (((close d s).1).readyState == "open") = false := by simp [h1]
      conv_lhs => rw [close]
      rw [hb2]
      simp
    · have hb : (s.readyState == "open") = false := by simp [h]
      have h1 : close d s = (s, []) := by simp [close, hb]
      rw [h1]
      simp [close, hb]
  · intro h hw
    have hb : (s.readyState == "open") = true := by simp [h]
    have he : s.writeBuffer.isEmpty = false := by
      cases hwb : s.writeBuffer with
      | nil => exact absurd hwb hw
      | cons a l => rfl
    have hcl : close d s = ({ s with readyState := "closing", pendingCloseOnDrain := true }, []) := by
      simp [close, hb, he]
    refine ⟨hcl, ?_⟩
    rw [hcl]
    unfold onSocketDrain closeTransport
    cases d <;> simp
  · intro h he
    have hb : (s.readyState == "open") = true := by simp [h]
    have heb : s.writeBuffer.isEmpty = true := by simp [he]
    have hcl : close d s = closeTransport d { s with readyState := "closing" } := by
      simp [close, hb, heb]
    refine ⟨hcl, ?_⟩
    rw [hcl]
    unfold closeTransport
    cases d <;> simp

/-- Witness for C8: closing a concrete open session with an empty buffer
closes the transport immediately. -/
theorem spec_C8_witness :
    sampleSocket.readyState = "open" ∧ sampleSocket.writeBuffer = [] ∧
    close false sampleSocket = closeTransport false { sampleSocket with readyState := "closing" } :=
  ⟨rfl, rfl, ((spec_C8 false false sampleSocket).2.2 rfl rfl).1⟩

/-- Claim C9: at every stable point — after the server's construction,
after each handshake (which stores the session and increments the counter
in one step) and after each once-close handler (which deletes it and
decrements in one step) — `clientsCount` equals the number of entries of
the clients table.  Freshness of the handshake sid reflects the
uniqueness of `generateId` among live sessions. -/
theorem spec_C9 (st : ServerClients) (h : SrvReachable st) :
    st.clientsCount = st.clients.length := by
  induction h with
  | refl => rfl
  | tail _ step ih =>
    cases step with
    | handshake id fresh => simpa using ih
    | socketClose id mem =>
        show _ - 1 = _
        rw [List.length_erase_of_mem mem, ih]

/-- Witness for C9: the state after one handshake is reachable and
balanced. -/
theorem spec_C9_witness :
    SrvReachable { clients := ["a"], clientsCount := 1 } ∧
    ({ clients := ["a"], clientsCount := 1 } : ServerClients).clientsCount
      = ({ clients := ["a"], clientsCount := 1 } : ServerClients).clients.length := by
  have h : SrvReachable { clients := ["a"], clientsCount := 1 } :=
    Relation.ReflTransGen.single (SrvStep.handshake initialServer "a" (by simp [initialServer]))
  exact ⟨h, spec_C9 _ h⟩

theorem upgradeCommit_eq (cand : Transport) (s : Socket) :
    upgradeCommit cand s =
      if ((flush (upgCommitState cand s)).1).readyState == "closing" then
        ((flush (upgCommitState cand s)).1,
         upgCommitEvs cand s ++ [Ev.candClose (some "forced close")])
      else ((flush (upgCommitState cand s)).1, upgCommitEvs cand s) := rfl

/-- Claim C1: in `maybeUpgrade` with candidate transport T', a ping
packet with data "probe" answers with a pong "probe" on T', emits
`upgrading(T')` and starts the 100 ms check interval, whose body sends a
noop packet on the old transport exactly when that transport is polling
and writable; an upgrade packet commits — check interval and upgrade
timeout are cancelled, the old transport is discarded and closed,
`upgraded` becomes true and `upgrading` false, T' becomes the session's
transport, `upgrade(T')` is emitted, the heartbeat is re-scheduled, the
buffered packets are flushed, and a session already in `closing` closes
T' with a forced close; any other packet aborts the upgrade by closing
T' while the session keeps its old transport. -/
theorem spec_C1 (cand : Transport) (p : Packet) (s : Socket) :
    (p.type = "ping" → p.data = some (.str "probe") →
      upgradeOnPacket cand p s =
        ({ s with checkIntervalTimer := some 100 },
         [Ev.candSend [pongProbePkt], Ev.emitUpgrading cand]) ∧
      pongProbePkt = { type := "pong", data := some (.str "probe") }) ∧
    ((upgradeCheck s = if s.transport.name = "polling" ∧ s.transport.writable = true
        then [Ev.transportSend [noopPkt]] else []) ∧
      noopPkt.type = "noop") ∧
    (p.type = "upgrade" → s.readyState ≠ "closed" →
      ((upgradeOnPacket cand p s).1).checkIntervalTimer = none ∧
      ((upgradeOnPacket cand p s).1).upgradeTimeoutTimer = false ∧
      ((upgradeOnPacket cand p s).1).upgraded = true ∧
      ((upgradeOnPacket cand p s).1).upgrading = false ∧
      ((upgradeOnPacket cand p s).1).transport = cand ∧
      ((upgradeOnPacket cand p s).1).pingIntervalTimer = some s.opts.pingInterval ∧
      Ev.transportDiscard ∈ (upgradeOnPacket cand p s).2 ∧
      Ev.transportClose none ∈ (upgradeOnPacket cand p s).2 ∧
      Ev.emitUpgrade cand ∈ (upgradeOnPacket cand p s).2 ∧
      (cand.writable = true → s.writeBuffer ≠ [] →
        Ev.transportSend s.writeBuffer ∈ (upgradeOnPacket cand p s).2 ∧
        ((upgradeOnPacket cand p s).1).writeBuffer = []) ∧
      (s.readyState = "closing" →
        Ev.candClose (some "forced close") ∈ (upgradeOnPacket cand p s).2)) ∧
    (¬(p.type = "ping" ∧ p.data = some (.str "probe")) → p.type ≠ "upgrade" →
      upgradeOnPacket cand p s = (upgradeCleanup s, [Ev.candClose none]) ∧
      (upgradeCleanup s).transport = s.transport ∧
      (upgradeCleanup s).readyState = s.readyState ∧
      (upgradeCleanup s).writeBuffer = s.writeBuffer ∧
      (upgradeCleanup s).upgrading = false) := by
  refine ⟨?_, ?_, ?_, ?_⟩
  · intro hp hd
    refine ⟨?_, rfl⟩
    unfold upgradeOnPacket
    simp [hp, hd]
  · constructor
    · by_cases h1 : s.transport.name = "polling" <;>
        by_cases h2 : s.transport.writable = true <;>
        simp [upgradeCheck, h1, h2]
    · rfl
  · intro hp hrs
    have hcomm : upgradeOnPacket cand p s = upgradeCommit cand s := by
      unfold upgradeOnPacket
      simp [hp, hrs]
    rw [hcomm, upgradeCommit_eq]
    have hrs6 : ((flush (upgCommitState cand s)).1).readyState = s.readyState := by
      rw [flush_fst_readyState]
      rfl
    split
    · next hclo =>
        refine ⟨?_, ?_, ?_, ?_, ?_, ?_, ?_, ?_, ?_, ?_, ?_⟩
        · rw [flush_fst_checkIntervalTimer]
          rfl
        · rw [flush_fst_upgradeTimeoutTimer]
          rfl
        · rw [flush_fst_upgraded]
          rfl
        · rw [flush_fst_upgrading]
          rfl
        · rw [flush_fst_transport]
          rfl
        · rw [flush_fst_pingIntervalTimer]
          rfl
        · simp [upgCommitEvs]
        · simp [upgCommitEvs]
        · simp [upgCommitEvs]
        · intro hw hwb
          have he : s.writeBuffer.isEmpty = false := by
            cases hwb2 : s.writeBuffer with
            | nil => exact absurd hwb2 hwb
            | cons a l => rfl
          have hfc : flushCond (upgCommitState cand s) = true := by
            simp [flushCond, upgCommitState, hrs, hw, he]
          have hfl2 : (flush (upgCommitState cand s)).2 =
              [Ev.emitFlush s.writeBuffer, Ev.serverEmit "flush",
               Ev.transportSend s.writeBuffer, Ev.emit "drain", Ev.serverEmit "drain"] := by
            simp only [flush]
            rw [if_pos hfc]
            rfl
          have hfl1 : ((flush (upgCommitState cand s)).1).writeBuffer = [] := by
            simp only [flush]
            rw [if_pos hfc]
          constructor
          · simp [upgCommitEvs, hfl2]
          · exact hfl1
        · intro _
          simp
    · next hclo =>
        refine ⟨?_, ?_, ?_, ?_, ?_, ?_, ?_, ?_, ?_, ?_, ?_⟩
        · rw [flush_fst_checkIntervalTimer]
          rfl
        · rw [flush_fst_upgradeTimeoutTimer]
          rfl
        · rw [flush_fst_upgraded]
          rfl
        · rw [flush_fst_upgrading]
          rfl
        · rw [flush_fst_transport]
          rfl
        · rw [flush_fst_pingIntervalTimer]
          rfl
        · simp [upgCommitEvs]
        · simp [upgCommitEvs]
        · simp [upgCommitEvs]
        · intro hw hwb
          have he : s.writeBuffer.isEmpty = false := by
            cases hwb2 : s.writeBuffer with
            | nil => exact absurd hwb2 hwb
            | cons a l => rfl
          have hfc : flushCond (upgCommitState cand s) = true := by
            simp [flushCond, upgCommitState, hrs, hw, he]
          have hfl2 : (flush (upgCommitState cand s)).2 =
              [Ev.emitFlush s.writeBuffer, Ev.serverEmit "flush",
               Ev.transportSend s.writeBuffer, Ev.emit "drain", Ev.serverEmit "drain"] := by
            simp only [flush]
            rw [if_pos hfc]
            rfl
          have hfl1 : ((flush (upgCommitState cand s)).1).writeBuffer = [] := by
            simp only [flush]
            rw [if_pos hfc]
          constructor
          · simp [upgCommitEvs, hfl2]
          · exact hfl1
        · intro hcl
          exact absurd (by rw [hrs6, hcl]; decide) hclo
  · intro hnp hnu
    have c1 : (p.type == "ping" && p.data == some (.str "probe")) = false := by
      by_cases ht : p.type = "ping"
      · have hd : p.data ≠ some (.str "probe") := fun hd => hnp ⟨ht, hd⟩
        simp [ht, hd]
      · simp [ht]
    have c2 : (p.type == "upgrade" && !(s.readyState == "closed")) = false := by
      simp [hnu]
    refine ⟨?_, rfl, rfl, rfl, rfl⟩
    unfold upgradeOnPacket
    simp [c1, c2]

/-- Witness for C1: committing a concrete upgrade to a websocket
candidate binds the candidate as the session's transport and marks the
session upgraded. -/
theorem spec_C1_witness :
    upgPkt.type = "upgrade" ∧ upgSock.readyState ≠ "closed" ∧
    ((upgradeOnPacket websocketT upgPkt upgSock).1).upgraded = true ∧
    ((upgradeOnPacket websocketT upgPkt upgSock).1).transport = websocketT :=
  ⟨rfl, by decide,
   ((spec_C1 websocketT upgPkt upgSock).2.2.1 rfl (by decide)).2.2.1,
   ((spec_C1 websocketT upgPkt upgSock).2.2.1 rfl (by decide)).2.2.2.2.1⟩

end EngineIO








